import Mathlib

/-!
Shallow embedding of the bulk-job subsystem of the go-sfdc client library
(package `sfdc`, file src/error.go, and package `bulk`, file src/bulk/job.go
plus the jobs lister and endpoint constants), together with theorems checking
the natural-language specification against it.

HTTP transport, `context.Context` and the JSON/CSV text-level readers of the
Go standard library are not code of this repository; where a repository
function calls them, the embedding passes their outcome in as an explicit
argument (an oracle value), and the number of transport calls performed is
returned alongside the function's result so that "no HTTP call is made"
claims are statable.  Go slices are represented as Lean lists, Go maps built
by in-order insertion as insertion-ordered association lists, and a Go
runtime panic (negative or out-of-range index, out-of-range slice bound) as
an explicit `panic` outcome value.
-/

namespace GoSfdc

/-! ## Error translator (src/error.go) -/

namespace sfdc

/-- Error is the error structure defined by the Salesforce API
(src/error.go lines 13-17). -/
structure Error where
  errorCode : String := ""
  message : String := ""
  fields : List String := []
deriving DecidableEq, Repr

/-- Error.Error (src/error.go lines 20-22):
fmt.Sprintf of the code, the message and the comma-joined fields. -/
def Error.errorString (e : Error) : String :=
  e.errorCode ++ ": " ++ e.message ++ " (" ++ String.intercalate ", " e.fields ++ ")"

/-- Errors.Error (src/error.go lines 77-84): the comma-joined entry strings. -/
def Errors.errorString (es : List Error) : String :=
  String.intercalate ", " (es.map Error.errorString)

/-- JsonValue models the result of Go's encoding/json text-level parse
(the values stored by json.Unmarshal in an interface: null, bool, number,
string, array, object).  Numbers keep their source text: no claim inspects
them. -/
inductive JsonValue where
  | null : JsonValue
  | bool (b : Bool) : JsonValue
  | num (text : String) : JsonValue
  | str (s : String) : JsonValue
  | arr (elems : List JsonValue) : JsonValue
  | obj (fields : List (String × JsonValue)) : JsonValue

/-- Lookup of a key in a decoded JSON object, as Go's map indexing with the
comma-ok idiom.  Keys of a JSON object decoded by Go are distinct (a later
duplicate overwrites), so first-match lookup is faithful. -/
def jlookup (kvs : List (String × JsonValue)) (k : String) : Option JsonValue :=
  (kvs.find? (fun p => p.1 == k)).map (fun p => p.2)

/-- Error.UnmarshalJSON (src/error.go lines 25-72) over the parsed JSON value:
unmarshals into a map, then reads statusCode, errorCode (overriding
statusCode), message and fields, each failing when present with the wrong
shape.  A non-object value makes the initial json.Unmarshal into a map fail. -/
def Error.unmarshalJSON (v : JsonValue) : Except String Error :=
  match v with
  | .obj kvs => do
    let e : Error := { errorCode := "", message := "", fields := [] }
    let e ← match jlookup kvs "statusCode" with
      | none => pure e
      | some (.str s) => pure { e with errorCode := s }
      | some _ => throw "json error: statusCode is not a string"
    let e ← match jlookup kvs "errorCode" with
      | none => pure e
      | some (.str s) => pure { e with errorCode := s }
      | some _ => throw "json error: errorCode is not a string"
    let e ← match jlookup kvs "message" with
      | none => pure e
      | some (.str s) => pure { e with message := s }
      | some _ => throw "json error: message is not a string"
    let e ← match jlookup kvs "fields" with
      | none => pure e
      | some (.arr elems) => do
        let fs ← elems.mapM (fun el => match el with
          | .str s => pure s
          | _ => throw "json error: field element is not a string")
        pure { e with fields := fs }
      | some _ => throw "json error: fields is not an array"
    pure e
  | _ => .error "json: cannot unmarshal into map"

/-- json.Unmarshal of a parsed body into the Errors slice: the body must be a
JSON array and every element must unmarshal via Error.UnmarshalJSON. -/
def decodeErrors (v : JsonValue) : Except String (List Error) :=
  match v with
  | .arr elems => elems.mapM Error.unmarshalJSON
  | _ => .error "json: cannot unmarshal into Errors"

/-- BodyError is the error produced by newErrorFromBody: either the raw body
text (when JSON decoding fails) or the structured Errors collection. -/
inductive BodyError where
  | plain (msg : String) : BodyError
  | structured (errs : List Error) : BodyError
deriving DecidableEq, Repr

/-- Textual form of the wrapped error (errors.New(string(body)).Error() or
Errors.Error()). -/
def BodyError.errorString : BodyError → String
  | .plain msg => msg
  | .structured errs => Errors.errorString errs

/-- newErrorFromBody (src/error.go lines 92-104).  `parsed` is the outcome of
the standard library's text-level JSON parse of the body (`none` when the
body is not valid JSON); any failure of json.Unmarshal - text parse or
element unmarshal - yields errors.New(string(body)). -/
def newErrorFromBody (body : String) (parsed : Option JsonValue) : BodyError :=
  match parsed with
  | none => .plain body
  | some v =>
    match decodeErrors v with
    | .error _ => .plain body
    | .ok errs => .structured errs

/-- HandledError is the error returned by HandleError: fmt.Errorf wrapping
(%w) keeps the body error as a structured value inside. -/
structure HandledError where
  status : String
  wrapped : BodyError
deriving DecidableEq, Repr

/-- HandleError (src/error.go lines 88-90): fmt.Errorf with the response
status, wrapping newErrorFromBody's error. -/
def HandleError (status body : String) (parsed : Option JsonValue) : HandledError :=
  { status := status, wrapped := newErrorFromBody body parsed }

/-- Textual form of the handled error: status, ": ", wrapped error text. -/
def HandledError.errorString (h : HandledError) : String :=
  h.status ++ ": " ++ h.wrapped.errorString

end sfdc

/-! ## Bulk job subsystem (src/bulk/job.go, jobs lister, endpoint constants) -/

namespace bulk

/-- BulkEndpoint constants (source: BulkEndpoint string type with
V2IngestEndpoint and V2QueryEndpoint). -/
def V2IngestEndpoint : String := "/jobs/ingest"

/-- V2QueryEndpoint is the bulk 2.0 query endpoint path. -/
def V2QueryEndpoint : String := "/jobs/query"

/-- Well-known result column sf__Id (src/bulk/job.go line 125). -/
def sfID : String := "sf__Id"

/-- Well-known result column sf__Error (src/bulk/job.go line 128). -/
def sfError : String := "sf__Error"

/-- Well-known result column sf__Created (src/bulk/job.go line 131). -/
def sfCreated : String := "sf__Created"

/-- Options are the options for the job (src/bulk/job.go lines 187-195).
The Go string-based types (Operation, ColumnDelimiter, ContentType,
LineEnding) are plain strings. -/
structure Options where
  query : String := ""
  columnDelimiter : String := ""
  contentType : String := ""
  externalIDFieldName : String := ""
  lineEnding : String := ""
  object : String := ""
  operation : String := ""
deriving DecidableEq, Repr

/-- Operation.IsValid (src/bulk/job.go lines 97-103). -/
def Operation.IsValid (o : String) : Bool :=
  o == "insert" || o == "delete" || o == "update" || o == "upsert" ||
  o == "query" || o == "queryAll"

/-- Response is the response to job APIs (src/bulk/job.go lines 198-214).
The float32 apiVersion field is omitted: no claim touches it and keeping the
structure decidably comparable matters more. -/
structure Response where
  columnDelimiter : String := ""
  concurrencyMode : String := ""
  contentType : String := ""
  contentURL : String := ""
  createdByID : String := ""
  createdDate : String := ""
  externalIDFieldName : String := ""
  id : String := ""
  jobType : String := ""
  lineEnding : String := ""
  object : String := ""
  operation : String := ""
  state : String := ""
  systemModstamp : String := ""
deriving DecidableEq, Repr

/-- Info is the response to the job information API
(src/bulk/job.go lines 217-226). -/
structure Info extends Response where
  apexProcessingTime : Int := 0
  apiActiveProcessingTime : Int := 0
  numberRecordsFailed : Int := 0
  numberRecordsProcessed : Int := 0
  retries : Int := 0
  totalProcessingTime : Int := 0
  errorMessage : String := ""
deriving DecidableEq, Repr

/-- Job is the bulk job (src/bulk/job.go lines 229-233); the session
collaborator is abstracted away, transport outcomes are passed per call. -/
structure Job where
  endpoint : String := ""
  info : Response := {}
deriving DecidableEq, Repr

/-- NewJob (src/bulk/job.go lines 235-240): zero-valued info. -/
def NewJob (endpoint : String) : Job :=
  { endpoint := endpoint, info := {} }

/-- Job.formatOptions (src/bulk/job.go lines 255-283): validates the
operation, the upsert external-ID field, the query text for query-type
operations, the object when the query text is empty, then fills defaults. -/
def Job.formatOptions (options : Options) : Except String Options :=
  if ¬ Operation.IsValid options.operation then
    .error "bulk job: invalid operation"
  else if options.operation = "upsert" ∧ options.externalIDFieldName = "" then
    .error "bulk job: external id field name is required for upsert operation"
  else if (options.operation = "query" ∨ options.operation = "queryAll") ∧ options.query = "" then
    .error "bulk job: query is required"
  else if options.query = "" ∧ options.object = "" then
    .error "bulk job: object is required"
  else
    .ok { options with
          lineEnding := if options.lineEnding = "" then "LF" else options.lineEnding
          contentType := if options.contentType = "" then "CSV" else options.contentType
          columnDelimiter := if options.columnDelimiter = "" then "COMMA" else options.columnDelimiter }

/-- Job.create (src/bulk/job.go lines 242-253): formatOptions first; only on
success is createCallout reached, which performs exactly one HTTP POST via
the session client.  The callout is an oracle and the second component
counts the HTTP calls performed. -/
def Job.create (callout : Options → Except String Response) (options : Options) :
    Except String Response × Nat :=
  match Job.formatOptions options with
  | .error e => (.error e, 0)
  | .ok opts => (callout opts, 1)

/-- Job.delimiter (src/bulk/job.go lines 704-719): switch over the symbolic
column-delimiter name stored in the job info, defaulting to comma. -/
def Job.delimiter (j : Job) : Char :=
  if j.info.columnDelimiter = "TAB" then '\t'
  else if j.info.columnDelimiter = "SEMICOLON" then ';'
  else if j.info.columnDelimiter = "PIPE" then '|'
  else if j.info.columnDelimiter = "CARET" then '^'
  else if j.info.columnDelimiter = "BACKQUOTE" then Char.ofNat 96
  else ','

/-! ### Wait polling loop (src/bulk/job.go lines 436-475)

The goroutine's decision logic after each successful or failed Info poll,
over the sequence of poll outcomes: a failed poll sends the error and stops;
a successful poll stops (sending the snapshot) exactly when the state is
JobComplete, and otherwise loops for another backoff-delayed poll.  Timer
and channel scheduling are outside the embedding. -/

/-- Outcome of running the Wait polling loop over a finite list of Info poll
results; `polling` means every listed poll was consumed without the loop
terminating (it would poll again). -/
inductive WaitOutcome where
  | completed (info : Info) : WaitOutcome
  | failed (err : String) : WaitOutcome
  | polling : WaitOutcome
deriving DecidableEq, Repr

/-- The Wait loop body (src/bulk/job.go lines 445-465) applied to successive
j.Info outcomes. -/
def waitRun : List (Except String Info) → WaitOutcome
  | [] => .polling
  | .error e :: _ => .failed e
  | .ok status :: rest =>
    if status.state = "JobComplete" then .completed status else waitRun rest

/-! ### CSV record decoding (src/bulk/job.go lines 478-702)

Rows delivered by Go's csv.Reader are modelled as a list of Read outcomes
(`.ok row` or `.error msg`); the end of the list is io.EOF.  Go indexing and
slicing return `none` where Go panics. -/

/-- Go slice indexing values[i] with an int index: `none` is a runtime panic
(negative index, as produced by headerPosition's -1 sentinel, or index
beyond the slice length). -/
def goIndex (xs : List String) (i : Int) : Option String :=
  if i < 0 then none else xs[i.toNat]?

/-- Go slicing xs[lo:]: `none` is a runtime panic (bound beyond the
length). -/
def goSliceFrom (xs : List String) (lo : Nat) : Option (List String) :=
  if lo ≤ xs.length then some (xs.drop lo) else none

/-- Job.headerPosition (src/bulk/job.go lines 681-688): index of the first
header cell equal to the column name, -1 when absent. -/
def Job.headerPosition (column : String) : List String → Int
  | [] => -1
  | col :: rest =>
    if col = column then 0
    else
      let r := Job.headerPosition column rest
      if r = -1 then -1 else r + 1

/-- Go map assignment m[k] = v on a map represented as an insertion-ordered
association list: overwrite in place when the key exists, append
otherwise. -/
def mapInsert (m : List (String × String)) (k v : String) : List (String × String) :=
  if m.any (fun p => p.1 == k) then m.map (fun p => if p.1 == k then (k, v) else p)
  else m ++ [(k, v)]

/-- The iteration of Job.record: walks the header cells pairing them with the
row cells; `none` is the runtime panic Go hits when the row is shorter than
the header (values[idx] out of range). -/
def recordGo (acc : List (String × String)) :
    List String → List String → Option (List (String × String))
  | [], _ => some acc
  | _ :: _, [] => none
  | f :: fs, v :: vs => recordGo (mapInsert acc f v) fs vs

/-- Job.record (src/bulk/job.go lines 696-702): builds the field-name to
value mapping for one row. -/
def record (fields values : List String) : Option (List (String × String)) :=
  recordGo [] fields values

/-- strconv.ParseBool of the Go standard library, as called by
SuccessfulRecords. -/
def parseBool (s : String) : Except String Bool :=
  if s = "1" ∨ s = "t" ∨ s = "T" ∨ s = "true" ∨ s = "TRUE" ∨ s = "True" then .ok true
  else if s = "0" ∨ s = "f" ∨ s = "F" ∨ s = "false" ∨ s = "FALSE" ∨ s = "False" then .ok false
  else .error ("strconv.ParseBool: parsing " ++ s ++ ": invalid syntax")

/-- UnprocessedRecord (src/bulk/job.go lines 144-146). -/
structure UnprocessedRecord where
  fields : List (String × String) := []
deriving DecidableEq, Repr

/-- SuccessfulRecord (src/bulk/job.go lines 155-158); the Go struct embedding
of JobRecord/UnprocessedRecord is flattened. -/
structure SuccessfulRecord where
  created : Bool := false
  id : String := ""
  fields : List (String × String) := []
deriving DecidableEq, Repr

/-- FailedRecord (src/bulk/job.go lines 161-164), flattened as above. -/
structure FailedRecord where
  error : String := ""
  id : String := ""
  fields : List (String × String) := []
deriving DecidableEq, Repr

/-- ResultsPage (src/bulk/job.go lines 168-171). -/
structure ResultsPage where
  records : List (List (String × String)) := []
  locator : String := ""
deriving DecidableEq, Repr

/-- Outcome of decoding one data row into a typed record. -/
inductive RowOut (α : Type) where
  | ok (a : α) : RowOut α
  | err (e : String) : RowOut α
  | panic : RowOut α
deriving DecidableEq, Repr

/-- Result of a record-set endpoint call ([]T, error in Go): `ok` is
(records, nil), `fail` is (partial records, err) after the header row was
read, `nilErr` is (nil, err) - transport failure, header-row read failure -
`httpErr` is (nil, sfdc.HandleError(response)) for a non-200 status, and
`panic` is a Go runtime panic. -/
inductive RecordsReturn (α : Type) where
  | ok (records : List α) : RecordsReturn α
  | fail (records : List α) (err : String) : RecordsReturn α
  | nilErr (err : String) : RecordsReturn α
  | httpErr (statusCode : Nat) : RecordsReturn α
  | panic : RecordsReturn α
deriving DecidableEq, Repr

/-- Result of Job.Results (*ResultsPage, error in Go): `page` is (&result,
nil), `partialPage` is (&result, err) for a row failure after the header,
`nilErr` is (nil, err) - the usage guard, transport failure or header-row
read failure - and `httpErr` is (nil, sfdc.HandleError(response)). -/
inductive ResultsReturn where
  | page (p : ResultsPage) : ResultsReturn
  | partialPage (p : ResultsPage) (err : String) : ResultsReturn
  | nilErr (err : String) : ResultsReturn
  | httpErr (statusCode : Nat) : ResultsReturn
  | panic : ResultsReturn
deriving DecidableEq, Repr

/-- One HTTP response carrying CSV, as consumed by Results and the record-set
endpoints: the status code, the Sforce-Locator and Sforce-NumberOfRecords
headers, and the successive csv.Reader.Read outcomes of the body. -/
structure CsvResponse where
  statusCode : Nat := 200
  locatorHeader : String := ""
  recordCountHeader : String := ""
  reads : List (Except String (List String)) := []

/-- The per-row work of SuccessfulRecords (src/bulk/job.go lines 575-583):
parse the sf__Created cell as a bool, take the sf__Id cell, and build the
field map from the cells after the first two. -/
def successRow (fields values : List String) : RowOut SuccessfulRecord :=
  match goIndex values (Job.headerPosition sfCreated fields) with
  | none => .panic
  | some createdStr =>
    match parseBool createdStr with
    | .error e => .err e
    | .ok created =>
      match goIndex values (Job.headerPosition sfID fields) with
      | none => .panic
      | some id =>
        match goSliceFrom fields 2, goSliceFrom values 2 with
        | some f2, some v2 =>
          match record f2 v2 with
          | none => .panic
          | some m => .ok { created := created, id := id, fields := m }
        | _, _ => .panic

/-- The per-row work of FailedRecords (src/bulk/job.go lines 626-630): take
the sf__Error and sf__Id cells and build the field map from the cells after
the first two. -/
def failedRow (fields values : List String) : RowOut FailedRecord :=
  match goIndex values (Job.headerPosition sfError fields) with
  | none => .panic
  | some errText =>
    match goIndex values (Job.headerPosition sfID fields) with
    | none => .panic
    | some id =>
      match goSliceFrom fields 2, goSliceFrom values 2 with
      | some f2, some v2 =>
        match record f2 v2 with
        | none => .panic
        | some m => .ok { error := errText, id := id, fields := m }
      | _, _ => .panic

/-- The row loop of SuccessfulRecords (src/bulk/job.go lines 567-584):
io.EOF ends with (records, nil); a row read or parse failure returns the
records decoded so far together with the error. -/
def successLoop (fields : List String) (acc : List SuccessfulRecord) :
    List (Except String (List String)) → RecordsReturn SuccessfulRecord
  | [] => .ok acc
  | .error e :: _ => .fail acc e
  | .ok values :: rest =>
    match successRow fields values with
    | .panic => .panic
    | .err e => .fail acc e
    | .ok r => successLoop fields (acc ++ [r]) rest

/-- The row loop of FailedRecords (src/bulk/job.go lines 618-631). -/
def failedLoop (fields : List String) (acc : List FailedRecord) :
    List (Except String (List String)) → RecordsReturn FailedRecord
  | [] => .ok acc
  | .error e :: _ => .fail acc e
  | .ok values :: rest =>
    match failedRow fields values with
    | .panic => .panic
    | .err e => .fail acc e
    | .ok r => failedLoop fields (acc ++ [r]) rest

/-- The row loop of UnprocessedRecords (src/bulk/job.go lines 665-676):
every column is a data field. -/
def unprocessedLoop (fields : List String) (acc : List UnprocessedRecord) :
    List (Except String (List String)) → RecordsReturn UnprocessedRecord
  | [] => .ok acc
  | .error e :: _ => .fail acc e
  | .ok values :: rest =>
    match record fields values with
    | none => .panic
    | some m => unprocessedLoop fields (acc ++ [{ fields := m }]) rest

/-- The row loop of Results (src/bulk/job.go lines 524-533): accumulates the
page records; a row failure returns the non-nil partial page with the
error. -/
def resultsLoop (fields : List String) (locator : String)
    (acc : List (List (String × String))) :
    List (Except String (List String)) → ResultsReturn
  | [] => .page { records := acc, locator := locator }
  | .error e :: _ => .partialPage { records := acc, locator := locator } e
  | .ok values :: rest =>
    match record fields values with
    | none => .panic
    | some m => resultsLoop fields locator (acc ++ [m]) rest

/-- Shared header phase of the three record-set endpoints (src/bulk/job.go
lines 548-566 and the parallel blocks): transport failure, non-200 status
via sfdc.HandleError, then the header-row read whose failure (io.EOF
included) yields (nil, err); the loop runs on the remaining reads.  The
second component counts HTTP calls. -/
def recordsEndpoint {α : Type}
    (loop : List String → List α → List (Except String (List String)) → RecordsReturn α)
    (client : Except String CsvResponse) : RecordsReturn α × Nat :=
  match client with
  | .error e => (.nilErr e, 1)
  | .ok resp =>
    if resp.statusCode ≠ 200 then (.httpErr resp.statusCode, 1)
    else
      match resp.reads with
      | [] => (.nilErr "EOF", 1)
      | .error e :: _ => (.nilErr e, 1)
      | .ok fields :: rest => (loop fields [] rest, 1)

/-- Job.SuccessfulRecords (src/bulk/job.go lines 539-587) with the transport
outcome as an oracle. -/
def Job.SuccessfulRecords (_j : Job) (client : Except String CsvResponse) :
    RecordsReturn SuccessfulRecord × Nat :=
  recordsEndpoint successLoop client

/-- Job.FailedRecords (src/bulk/job.go lines 590-634). -/
def Job.FailedRecords (_j : Job) (client : Except String CsvResponse) :
    RecordsReturn FailedRecord × Nat :=
  recordsEndpoint failedLoop client

/-- Job.UnprocessedRecords (src/bulk/job.go lines 637-679). -/
def Job.UnprocessedRecords (_j : Job) (client : Except String CsvResponse) :
    RecordsReturn UnprocessedRecord × Nat :=
  recordsEndpoint unprocessedLoop client

/-- Job.Results (src/bulk/job.go lines 478-536): the usage guard on the
endpoint comes before any HTTP work; past it, one HTTP GET is performed with
the locator and maxRecords forwarded as query parameters (the client oracle
receives them), the Sforce-Locator header seeds the page locator, and the
body is decoded row by row.  The Sforce-NumberOfRecords header only sizes a
Go slice allocation and has no observable effect. -/
def Job.Results (j : Job) (locator : String) (maxRecords : Int)
    (client : String → Int → Except String CsvResponse) : ResultsReturn × Nat :=
  if j.endpoint ≠ V2QueryEndpoint then
    (.nilErr "job error: results only available for query jobs", 0)
  else
    match client locator maxRecords with
    | .error e => (.nilErr e, 1)
    | .ok resp =>
      if resp.statusCode ≠ 200 then (.httpErr resp.statusCode, 1)
      else
        match resp.reads with
        | [] => (.nilErr "EOF", 1)
        | .error e :: _ => (.nilErr e, 1)
        | .ok fields :: rest => (resultsLoop fields resp.locatorHeader [] rest, 1)

/-! ### Concrete CSV bodies

A model of Go's csv.Reader restricted to bodies without quote characters and
with consistent field counts: each non-empty line is one row, split at the
configured delimiter, with a trailing carriage return stripped (CRLF) and a
trailing newline producing no extra row. -/

/-- Splitting a character list at a separator character (structurally
recursive so that concrete bodies evaluate inside proofs); agrees with
String.split on the separator predicate. -/
def splitOnChar (c : Char) : List Char → List (List Char)
  | [] => [[]]
  | x :: xs =>
    let rest := splitOnChar c xs
    if x = c then [] :: rest
    else
      match rest with
      | [] => [[x]]
      | l :: ls => (x :: l) :: ls

/-- Dropping one trailing carriage return, as Go's csv.Reader does for CRLF
input. -/
def stripTrailingCR (line : List Char) : List Char :=
  match line.reverse with
  | '\r' :: rest => rest.reverse
  | _ => line

/-- One CSV line split at the delimiter, with a trailing carriage return
stripped. -/
def csvLine (delim : Char) (line : List Char) : List String :=
  (splitOnChar delim (stripTrailingCR line)).map (fun cs => String.mk cs)

/-- The Read-outcome sequence Go's csv.Reader produces for a quote-free
body: each non-empty line is one row. -/
def csvReads (delim : Char) (body : String) : List (Except String (List String)) :=
  ((splitOnChar '\n' body.data).filter (fun l => !(l == [] || l == ['\r']))).map
    (fun l => .ok (csvLine delim l))

/-- Job.SuccessfulRecords against a concrete 200-status CSV body, read with
the job's configured delimiter. -/
def Job.successfulRecordsBody (j : Job) (statusCode : Nat) (body : String) :
    RecordsReturn SuccessfulRecord × Nat :=
  j.SuccessfulRecords (.ok { statusCode := statusCode, reads := csvReads j.delimiter body })

/-- Job.FailedRecords against a concrete 200-status CSV body. -/
def Job.failedRecordsBody (j : Job) (statusCode : Nat) (body : String) :
    RecordsReturn FailedRecord × Nat :=
  j.FailedRecords (.ok { statusCode := statusCode, reads := csvReads j.delimiter body })

/-! ### Jobs lister (src/unnamed/part_007) -/

/-- jobResponse (lister source lines 24-28). -/
structure jobResponse where
  done : Bool := false
  records : List Response := []
  nextRecordsURL : String := ""
deriving DecidableEq, Repr

/-- Jobs presents the response from the all jobs request (lister source lines
31-34); the session is abstracted away. -/
structure Jobs where
  response : jobResponse := {}
deriving DecidableEq, Repr

/-- Jobs.Done (lister source lines 59-61). -/
def Jobs.Done (j : Jobs) : Bool :=
  j.response.done

/-- Jobs.Next (lister source lines 69-85): the done guard comes before any
HTTP work; past it, exactly one HTTP GET is issued to the server-supplied
NextRecordsURL and a fresh Jobs handle is built from the decoded response.
The client oracle maps the requested URL to the outcome of request building,
transport, status check and JSON decoding; the second component lists the
URLs fetched.  The input handle is returned untouched by construction (the
Go method never assigns to j.response). -/
def Jobs.Next (j : Jobs) (client : String → Except String jobResponse) :
    Except String Jobs × List String :=
  if j.Done then (.error "jobs: there is no more records", [])
  else
    match client j.response.nextRecordsURL with
    | .error e => (.error e, [j.response.nextRecordsURL])
    | .ok resp => (.ok { response := resp }, [j.response.nextRecordsURL])

/-! ### Specification-side decode functions

These follow the spec's words "the records decoded before the failure": the
typed records obtained from the data rows up to, and not including, the
first failing row.  They are compared with the loops above. -/

/-- Records decoded by SuccessfulRecords from the rows before the first
failure. -/
def successDecoded (fields : List String) :
    List (Except String (List String)) → List SuccessfulRecord
  | [] => []
  | .error _ :: _ => []
  | .ok values :: rest =>
    match successRow fields values with
    | .ok r => r :: successDecoded fields rest
    | _ => []

/-- Records decoded by FailedRecords from the rows before the first
failure. -/
def failedDecoded (fields : List String) :
    List (Except String (List String)) → List FailedRecord
  | [] => []
  | .error _ :: _ => []
  | .ok values :: rest =>
    match failedRow fields values with
    | .ok r => r :: failedDecoded fields rest
    | _ => []

/-- Records decoded by UnprocessedRecords from the rows before the first
failure. -/
def unprocessedDecoded (fields : List String) :
    List (Except String (List String)) → List UnprocessedRecord
  | [] => []
  | .error _ :: _ => []
  | .ok values :: rest =>
    match record fields values with
    | some m => { fields := m } :: unprocessedDecoded fields rest
    | none => []

/-- Page records decoded by Results from the rows before the first
failure. -/
def resultsDecoded (fields : List String) :
    List (Except String (List String)) → List (List (String × String))
  | [] => []
  | .error _ :: _ => []
  | .ok values :: rest =>
    match record fields values with
    | some m => m :: resultsDecoded fields rest
    | none => []

/-! ### Concrete fixtures used by the theorems -/

/-- A pipe-delimiter ingest job. -/
def jobPipe : Job :=
  { endpoint := V2IngestEndpoint, info := { columnDelimiter := "PIPE" } }

/-- The two-row pipe-delimited success CSV of the spec's concrete
scenario. -/
def pipeBody : String := "sf__Created|sf__Id|Name\ntrue|001|Acme\n"

/-- The raw body of the spec's error-translation scenario. -/
def body400 : String :=
  "[\x7b\"errorCode\":\"MALFORMED_ID\",\"message\":\"bad id\",\"fields\":[\"Id\"]\x7d]"

/-- The JSON parse of body400. -/
def body400Json : sfdc.JsonValue :=
  .arr [.obj [("errorCode", .str "MALFORMED_ID"), ("message", .str "bad id"),
              ("fields", .arr [.str "Id"])]]

/-- The structured error carried by body400. -/
def err400 : sfdc.Error :=
  { errorCode := "MALFORMED_ID", message := "bad id", fields := ["Id"] }

/-- An exhausted lister handle. -/
def jobsDone : Jobs := { response := { done := true } }

/-- A lister handle with a further page at "next-url". -/
def jobsMore : Jobs :=
  { response := { done := false, nextRecordsURL := "next-url" } }

end bulk

/-! ## Theorems -/

open bulk

/-- C1: the claim says every Options value with an empty Object for a
non-query operation is rejected by Job.create with a validation error and no
HTTP call.  The code instead tests `Query == "" && Object == ""`, so an
insert-operation Options with empty Object but non-empty Query passes
formatOptions and Job.create performs its HTTP call - contradicting the
comment above the check ("Object is required for non-query operations"). -/
theorem createObjectValidationBug :
    Job.formatOptions { query := "q", object := "", operation := "insert" }
      = .ok { query := "q", object := "", operation := "insert",
              lineEnding := "LF", contentType := "CSV", columnDelimiter := "COMMA" }
    ∧ Job.create (fun _ => .ok {}) { query := "q", object := "", operation := "insert" }
      = (.ok {}, 1) :=
  ⟨rfl, rfl⟩

/-- C3: in the Wait polling loop, a successful Info snapshot with a state
other than JobComplete never terminates the loop (the loop proceeds exactly
as it would on the remaining polls), and any successfully-terminating run
ends with a snapshot whose state is JobComplete. -/
theorem waitLoopOnlyJobCompleteTerminates :
    (∀ (info : Info) (rest : List (Except String Info)),
        info.state ≠ "JobComplete" → waitRun (.ok info :: rest) = waitRun rest)
    ∧ (∀ (polls : List (Except String Info)) (info : Info),
        waitRun polls = .completed info → info.state = "JobComplete") := by
  constructor
  · intro info rest h
    simp [waitRun, h]
  · intro polls
    induction polls with
    | nil =>
      intro info h
      simp [waitRun] at h
    | cons head tail ih =>
      intro info h
      cases head with
      | error e =>
        simp [waitRun] at h
      | ok status =>
        by_cases hs : status.state = "JobComplete"
        · simp only [waitRun, hs, if_pos, WaitOutcome.completed.injEq] at h
          simp [← h, hs]
        · simp only [waitRun, hs, if_neg, if_false] at h
          exact ih info h

/-- Witness for C3: an Open snapshot is skipped over, and the terminating
run on the remaining poll ends in state JobComplete. -/
theorem waitLoopOnlyJobCompleteTerminatesWitness :
    waitRun [.ok { state := "Open" }, .ok { state := "JobComplete" }]
        = waitRun [.ok { state := "JobComplete" }]
    ∧ ({ state := "JobComplete" } : Info).state = "JobComplete" :=
  ⟨waitLoopOnlyJobCompleteTerminates.1 { state := "Open" }
      [.ok { state := "JobComplete" }] (by decide),
   waitLoopOnlyJobCompleteTerminates.2 [.ok { state := "JobComplete" }]
      { state := "JobComplete" } (by decide)⟩

/-- C4: Job.Results on a job whose endpoint is not the V2 query endpoint
returns the usage error for every locator, maxRecords, transport behaviour
and job state, and performs zero HTTP calls. -/
theorem resultsNonQueryUsageError (j : Job) (locator : String) (maxRecords : Int)
    (client : String → Int → Except String CsvResponse)
    (h : j.endpoint ≠ V2QueryEndpoint) :
    j.Results locator maxRecords client
      = (.nilErr "job error: results only available for query jobs", 0) := by
  simp [Job.Results, h]

/-- Witness for C4: a freshly created ingest job. -/
theorem resultsNonQueryUsageErrorWitness :
    (NewJob V2IngestEndpoint).Results "abc" 100 (fun _ _ => .ok {})
      = (.nilErr "job error: results only available for query jobs", 0) :=
  resultsNonQueryUsageError (NewJob V2IngestEndpoint) "abc" 100 (fun _ _ => .ok {})
    (by decide)

/-- C8: Job.delimiter is total and deterministic: each of the six symbolic
names maps to its character, and every other stored value - the empty string
included - maps to comma. -/
theorem delimiterTotal (j : Job) :
    (j.info.columnDelimiter = "TAB" → j.delimiter = '\t')
    ∧ (j.info.columnDelimiter = "SEMICOLON" → j.delimiter = ';')
    ∧ (j.info.columnDelimiter = "PIPE" → j.delimiter = '|')
    ∧ (j.info.columnDelimiter = "CARET" → j.delimiter = '^')
    ∧ (j.info.columnDelimiter = "BACKQUOTE" → j.delimiter = Char.ofNat 96)
    ∧ (j.info.columnDelimiter = "COMMA" → j.delimiter = ',')
    ∧ (j.info.columnDelimiter ≠ "TAB" → j.info.columnDelimiter ≠ "SEMICOLON" →
       j.info.columnDelimiter ≠ "PIPE" → j.info.columnDelimiter ≠ "CARET" →
       j.info.columnDelimiter ≠ "BACKQUOTE" → j.delimiter = ',') := by
  refine ⟨?_, ?_, ?_, ?_, ?_, ?_, ?_⟩
  · intro h; simp [Job.delimiter, h]
  · intro h; simp [Job.delimiter, h]
  · intro h; simp [Job.delimiter, h]
  · intro h; simp [Job.delimiter, h]
  · intro h; simp [Job.delimiter, h]
  · intro h; simp [Job.delimiter, h]
  · intro h1 h2 h3 h4 h5; simp [Job.delimiter, h1, h2, h3, h4, h5]

/-- Witness for C8: the zero-valued job info (empty delimiter name) falls
back to comma. -/
theorem delimiterTotalWitness :
    (NewJob V2IngestEndpoint).delimiter = ',' :=
  (delimiterTotal (NewJob V2IngestEndpoint)).2.2.2.2.2.2
    (by decide) (by decide) (by decide) (by decide) (by decide)

/-- C5: the error built by HandleError reads "status: joined entries", each
entry "code: message (fields)", keeps the structured Errors collection in
the wrapped error, and on the 400 Bad Request / MALFORMED_ID scenario its
string is exactly "400 Bad Request: MALFORMED_ID: bad id (Id)". -/
theorem handleErrorFormat (status body : String) (v : sfdc.JsonValue)
    (errs : List sfdc.Error) (h : sfdc.decodeErrors v = .ok errs) :
    (sfdc.HandleError status body (some v)).errorString
        = status ++ ": " ++ String.intercalate ", " (errs.map sfdc.Error.errorString)
    ∧ (sfdc.HandleError status body (some v)).wrapped = .structured errs
    ∧ (sfdc.HandleError "400 Bad Request" body400 (some body400Json)).errorString
        = "400 Bad Request: MALFORMED_ID: bad id (Id)" := by
  refine ⟨?_, ?_, by decide⟩
  · simp [sfdc.HandleError, sfdc.HandledError.errorString, sfdc.newErrorFromBody, h,
          sfdc.BodyError.errorString, sfdc.Errors.errorString]
  · simp [sfdc.HandleError, sfdc.newErrorFromBody, h]

/-- Witness for C5: the scenario body decodes to the single MALFORMED_ID
error and the general shape instantiates to it. -/
theorem handleErrorFormatWitness :
    (sfdc.HandleError "400 Bad Request" body400 (some body400Json)).errorString
        = "400 Bad Request" ++ ": "
            ++ String.intercalate ", " ([err400].map sfdc.Error.errorString)
    ∧ (sfdc.HandleError "400 Bad Request" body400 (some body400Json)).wrapped
        = .structured [err400] :=
  ⟨(handleErrorFormat "400 Bad Request" body400 body400Json [err400] (by rfl)).1,
   (handleErrorFormat "400 Bad Request" body400 body400Json [err400] (by rfl)).2.1⟩

/-- C6: with a PIPE-delimiter job, SuccessfulRecords on the 200-status
two-row CSV body yields exactly one record with Created true, ID "001" and
the single-entry field map Name to Acme; and in general every decoded row
yields a record whose created flag is the parsed boolean of the sf__Created
column, whose id is the sf__Id column, and whose field map is built from
the columns after the first two. -/
theorem successfulRecordsPipeScenario :
    jobPipe.successfulRecordsBody 200 pipeBody
        = (.ok [{ created := true, id := "001", fields := [("Name", "Acme")] }], 1)
    ∧ ∀ (fields values : List String) (r : SuccessfulRecord),
        successRow fields values = .ok r →
          (∃ s, goIndex values (Job.headerPosition sfCreated fields) = some s
              ∧ parseBool s = .ok r.created)
          ∧ goIndex values (Job.headerPosition sfID fields) = some r.id
          ∧ record (fields.drop 2) (values.drop 2) = some r.fields := by
  constructor
  · rfl
  · intro fields values r h
    cases h1 : goIndex values (Job.headerPosition sfCreated fields) with
    | none => simp [successRow, h1] at h
    | some s =>
      cases h2 : parseBool s with
      | error e => simp [successRow, h1, h2] at h
      | ok created =>
        cases h3 : goIndex values (Job.headerPosition sfID fields) with
        | none => simp [successRow, h1, h2, h3] at h
        | some id =>
          cases h4 : goSliceFrom fields 2 with
          | none => simp [successRow, h1, h2, h3, h4] at h
          | some f2 =>
            cases h5 : goSliceFrom values 2 with
            | none => simp [successRow, h1, h2, h3, h4, h5] at h
            | some v2 =>
              cases h6 : record f2 v2 with
              | none => simp [successRow, h1, h2, h3, h4, h5, h6] at h
              | some m =>
                simp only [successRow, h1, h2, h3, h4, h5, h6,
                           RowOut.ok.injEq] at h
                have hf2 : f2 = fields.drop 2 := by
                  unfold goSliceFrom at h4
                  split at h4
                  · exact (Option.some.inj h4).symm
                  · exact absurd h4 (by simp)
                have hv2 : v2 = values.drop 2 := by
                  unfold goSliceFrom at h5
                  split at h5
                  · exact (Option.some.inj h5).symm
                  · exact absurd h5 (by simp)
                subst h
                refine ⟨⟨s, rfl, h2⟩, rfl, ?_⟩
                rw [← hf2, ← hv2]
                exact h6

/-- Witness for C6: the general row property at the scenario's header and
data row. -/
theorem successfulRecordsPipeScenarioWitness :
    (∃ s, goIndex ["true", "001", "Acme"]
            (Job.headerPosition sfCreated ["sf__Created", "sf__Id", "Name"]) = some s
        ∧ parseBool s = .ok true)
    ∧ goIndex ["true", "001", "Acme"]
        (Job.headerPosition sfID ["sf__Created", "sf__Id", "Name"]) = some "001"
    ∧ record (["sf__Created", "sf__Id", "Name"].drop 2) (["true", "001", "Acme"].drop 2)
        = some [("Name", "Acme")] :=
  successfulRecordsPipeScenario.2 ["sf__Created", "sf__Id", "Name"]
    ["true", "001", "Acme"]
    { created := true, id := "001", fields := [("Name", "Acme")] } (by rfl)

/-- C7: the claim says a 200 response whose CSV header lacks the sf__Created
column (for SuccessfulRecords) or the sf__Error / sf__Id columns (for
FailedRecords) makes the operation return an explicit error.  The code
instead leaves headerPosition's -1 sentinel unchecked and indexes the row
with it, a Go runtime panic (index out of range), on both operations. -/
theorem successfulRecordsMissingColumnPanics :
    (NewJob V2IngestEndpoint).successfulRecordsBody 200 "a,b\nx,y\n" = (.panic, 1)
    ∧ (NewJob V2IngestEndpoint).failedRecordsBody 200 "a,b\nx,y\n" = (.panic, 1)
    ∧ Job.headerPosition sfCreated ["a", "b"] = -1 :=
  ⟨rfl, rfl, rfl⟩

/-- C9: Jobs.Next on a done lister returns the usage error without fetching
any URL; on a non-done lister it fetches exactly the server-supplied
NextRecordsURL continuation cursor, and on a successful fetch returns a
fresh handle built from the decoded response (the pure embedding leaves the
input handle untouched by construction, as the Go method never assigns to
the receiver's response). -/
theorem jobsNextPagination (j : Jobs) (client : String → Except String jobResponse) :
    (j.Done = true → j.Next client = (.error "jobs: there is no more records", []))
    ∧ (j.Done = false →
        (j.Next client).2 = [j.response.nextRecordsURL]
        ∧ ∀ resp, client j.response.nextRecordsURL = .ok resp →
            (j.Next client).1 = .ok { response := resp }) := by
  constructor
  · intro h
    simp [Jobs.Next, h]
  · intro h
    constructor
    · cases hc : client j.response.nextRecordsURL <;> simp [Jobs.Next, h, hc]
    · intro resp hresp
      simp [Jobs.Next, h, hresp]

/-- Witness for C9: a done handle errors with no fetch; a non-done handle
fetches "next-url" once and wraps the decoded page. -/
theorem jobsNextPaginationWitness :
    jobsDone.Next (fun _ => .ok {}) = (.error "jobs: there is no more records", [])
    ∧ (jobsMore.Next (fun _ => .ok { done := true })).2 = ["next-url"]
    ∧ (jobsMore.Next (fun _ => .ok { done := true })).1
        = .ok { response := { done := true } } :=
  ⟨(jobsNextPagination jobsDone (fun _ => .ok {})).1 rfl,
   ((jobsNextPagination jobsMore (fun _ => .ok { done := true })).2 rfl).1,
   ((jobsNextPagination jobsMore (fun _ => .ok { done := true })).2 rfl).2
      { done := true } rfl⟩

/-- Auxiliary for C10: a failing SuccessfulRecords row loop keeps the
accumulated records and appends exactly the records decoded before the
failure. -/
theorem successLoop_fail_eq (fields : List String)
    (rows : List (Except String (List String))) :
    ∀ (acc recs : List SuccessfulRecord) (e : String),
      successLoop fields acc rows = .fail recs e →
      recs = acc ++ successDecoded fields rows := by
  induction rows with
  | nil =>
    intro acc recs e h
    simp [successLoop] at h
  | cons head tail ih =>
    intro acc recs e h
    cases head with
    | error e2 =>
      simp only [successLoop, RecordsReturn.fail.injEq] at h
      obtain ⟨h1, _⟩ := h
      subst h1
      simp [successDecoded]
    | ok values =>
      cases h3 : successRow fields values with
      | panic => simp [successLoop, h3] at h
      | err e3 =>
        simp only [successLoop, h3, RecordsReturn.fail.injEq] at h
        obtain ⟨h1, _⟩ := h
        subst h1
        simp [successDecoded, h3]
      | ok r =>
        simp only [successLoop, h3] at h
        have h2 := ih (acc ++ [r]) recs e h
        simp [successDecoded, h3, h2]

/-- Auxiliary for C10, FailedRecords version. -/
theorem failedLoop_fail_eq (fields : List String)
    (rows : List (Except String (List String))) :
    ∀ (acc recs : List FailedRecord) (e : String),
      failedLoop fields acc rows = .fail recs e →
      recs = acc ++ failedDecoded fields rows := by
  induction rows with
  | nil =>
    intro acc recs e h
    simp [failedLoop] at h
  | cons head tail ih =>
    intro acc recs e h
    cases head with
    | error e2 =>
      simp only [failedLoop, RecordsReturn.fail.injEq] at h
      obtain ⟨h1, _⟩ := h
      subst h1
      simp [failedDecoded]
    | ok values =>
      cases h3 : failedRow fields values with
      | panic => simp [failedLoop, h3] at h
      | err e3 =>
        simp only [failedLoop, h3, RecordsReturn.fail.injEq] at h
        obtain ⟨h1, _⟩ := h
        subst h1
        simp [failedDecoded, h3]
      | ok r =>
        simp only [failedLoop, h3] at h
        have h2 := ih (acc ++ [r]) recs e h
        simp [failedDecoded, h3, h2]

/-- Auxiliary for C10, UnprocessedRecords version. -/
theorem unprocessedLoop_fail_eq (fields : List String)
    (rows : List (Except String (List String))) :
    ∀ (acc recs : List UnprocessedRecord) (e : String),
      unprocessedLoop fields acc rows = .fail recs e →
      recs = acc ++ unprocessedDecoded fields rows := by
  induction rows with
  | nil =>
    intro acc recs e h
    simp [unprocessedLoop] at h
  | cons head tail ih =>
    intro acc recs e h
    cases head with
    | error e2 =>
      simp only [unprocessedLoop, RecordsReturn.fail.injEq] at h
      obtain ⟨h1, _⟩ := h
      subst h1
      simp [unprocessedDecoded]
    | ok values =>
      cases h3 : record fields values with
      | none => simp [unprocessedLoop, h3] at h
      | some m =>
        simp only [unprocessedLoop, h3] at h
        have h2 := ih (acc ++ [{ fields := m }]) recs e h
        simp [unprocessedDecoded, h3, h2]

/-- Auxiliary for C10, Results version: a partial page keeps the accumulated
records and the locator. -/
theorem resultsLoop_fail_eq (fields : List String) (locator : String)
    (rows : List (Except String (List String))) :
    ∀ (acc : List (List (String × String))) (p : ResultsPage) (e : String),
      resultsLoop fields locator acc rows = .partialPage p e →
      p = { records := acc ++ resultsDecoded fields rows, locator := locator } := by
  induction rows with
  | nil =>
    intro acc p e h
    simp [resultsLoop] at h
  | cons head tail ih =>
    intro acc p e h
    cases head with
    | error e2 =>
      simp only [resultsLoop, ResultsReturn.partialPage.injEq] at h
      obtain ⟨h1, _⟩ := h
      subst h1
      simp [resultsDecoded]
    | ok values =>
      cases h3 : record fields values with
      | none => simp [resultsLoop, h3] at h
      | some m =>
        simp only [resultsLoop, h3] at h
        have h2 := ih (acc ++ [m]) p e h
        simp [resultsDecoded, h3, h2]

/-- C10: when CSV decoding fails after the header row, each operation
returns the rows decoded before the failure alongside the error - Results
as a non-nil partial page keeping the locator, the record-set operations as
the partial record list - and a failure to read the header row itself
yields the nil result with the error. -/
theorem partialResultsPreserved :
    (∀ (fields : List String) (rows : List (Except String (List String)))
        (recs : List SuccessfulRecord) (e : String),
        successLoop fields [] rows = .fail recs e →
        recs = successDecoded fields rows)
    ∧ (∀ (fields : List String) (rows : List (Except String (List String)))
        (recs : List FailedRecord) (e : String),
        failedLoop fields [] rows = .fail recs e →
        recs = failedDecoded fields rows)
    ∧ (∀ (fields : List String) (rows : List (Except String (List String)))
        (recs : List UnprocessedRecord) (e : String),
        unprocessedLoop fields [] rows = .fail recs e →
        recs = unprocessedDecoded fields rows)
    ∧ (∀ (fields : List String) (loc : String)
        (rows : List (Except String (List String))) (p : ResultsPage) (e : String),
        resultsLoop fields loc [] rows = .partialPage p e →
        p = { records := resultsDecoded fields rows, locator := loc })
    ∧ (∀ (j : Job) (resp : CsvResponse) (e : String)
        (rest : List (Except String (List String))),
        resp.statusCode = 200 → resp.reads = .error e :: rest →
        j.SuccessfulRecords (.ok resp) = (.nilErr e, 1)) := by
  refine ⟨?_, ?_, ?_, ?_, ?_⟩
  · intro fields rows recs e h
    simpa using successLoop_fail_eq fields rows [] recs e h
  · intro fields rows recs e h
    simpa using failedLoop_fail_eq fields rows [] recs e h
  · intro fields rows recs e h
    simpa using unprocessedLoop_fail_eq fields rows [] recs e h
  · intro fields loc rows p e h
    simpa using resultsLoop_fail_eq fields loc rows [] p e h
  · intro j resp e rest h200 hreads
    simp [Job.SuccessfulRecords, recordsEndpoint, h200, hreads]

/-- Witness for C10: a success row decoded before a torn read is kept, and a
header-row read failure yields the nil result. -/
theorem partialResultsPreservedWitness :
    [{ created := true, id := "001", fields := [("Name", "Acme")] }]
        = successDecoded ["sf__Created", "sf__Id", "Name"]
            [.ok ["true", "001", "Acme"], .error "read failure"]
    ∧ (NewJob V2IngestEndpoint).SuccessfulRecords
        (.ok { statusCode := 200, reads := [.error "torn header"] })
        = (.nilErr "torn header", 1) :=
  ⟨partialResultsPreserved.1 ["sf__Created", "sf__Id", "Name"]
      [.ok ["true", "001", "Acme"], .error "read failure"]
      [{ created := true, id := "001", fields := [("Name", "Acme")] }]
      "read failure" (by rfl),
   partialResultsPreserved.2.2.2.2 (NewJob V2IngestEndpoint)
      { statusCode := 200, reads := [.error "torn header"] }
      "torn header" [] rfl rfl⟩

end GoSfdc
